import Mathlib

/-!
# Aang Air Control System — verification of the ML serving pipeline

Shallow embedding of the two source files of the repository:

* `ml_model/api.py` — the Flask prediction service (`/predict`, `/health`,
  bundle loading at startup);
* `ml_model/train_model.py` — the offline training pipeline
  (column selection, label encoding, train/test split, SMOTE,
  StandardScaler fit, AdaBoost fit).

Floating-point numbers are modelled as rationals (`ℚ`); the classifier and
the external library calls (train/test split, SMOTE, label encoding,
AdaBoost fitting) are opaque functions supplied as parameters, since their
internals are delegated to external statistical libraries and are out of
scope.  Everything the repository's own code does — field validation,
coercion, ordering, scaling arithmetic, label lookup, confidence and
probability-dictionary construction, error shaping — is embedded
faithfully, line by line.
-/

namespace Aang

/-! ## Serving side: `ml_model/api.py` -/

/-- A JSON field value as seen by `float(...)` in `predict` (api.py line
107-110): either it coerces to a floating-point number, or `float` raises
an exception carrying a message. -/
inductive FieldVal where
  | num (q : ℚ)
  | bad (excMsg : String)
deriving DecidableEq

/-- A parsed JSON object body: an association list from field names to
values (JSON object keys are unique after parsing). -/
abbrev RequestBody := List (String × FieldVal)

/-- The fitted `StandardScaler` as stored in the bundle and used by the
service: per-feature `mean_` and `scale_` vectors (api.py line 116). -/
structure Scaler where
  mean : List ℚ
  scale : List ℚ

/-- The loaded classifier: `model.predict` returns a class index (numpy
integer, so any integer), `model.predict_proba` returns a probability
vector.  Opaque: its internals are the external AdaBoost implementation. -/
structure Model where
  predictFn : List ℚ → Int
  predictProbaFn : List ℚ → List ℚ

/-- The process-wide globals of api.py (lines 18-21): `model`, `scaler`,
`label_classes` (initialised to `None`, `None`, `[]`). -/
structure ServiceState where
  model : Option Model
  scaler : Option Scaler
  label_classes : List String

/-- api.py line 101: `required_fields = ['temperature', 'co2', 'pm25', 'humidity']`. -/
def requiredFields : List String := ["temperature", "co2", "pm25", "humidity"]

/-- The specialization of the api.py lines 102-104 validation loop to a
body that parsed to a JSON object: the first field of `fields` that is
not a key of `data`, if any.  (The general loop over every parsed body
shape is `firstMissingIn` below; on objects the two agree.) -/
def firstMissing (data : RequestBody) : List String → Option String
  | [] => none
  | f :: fs => if (data.lookup f).isSome then firstMissing data fs else some f

/-- A parsed JSON body as `request.get_json()` (api.py line 98) can
produce it, other than `None`: a JSON object; a JSON array, of which only
the string elements are kept, since in Python a field name — a string —
compares equal only to strings, so elements of any other type can never
satisfy the membership test; a JSON string; or a non-container scalar
(number or boolean), carrying its Python type name for the `TypeError`
message.  A `None` result (JSON `null`, or no parseable body) is the
`none` case of the `Option` at the `predict` boundary. -/
inductive ParsedJson where
  | obj (data : RequestBody)
  | arr (strElems : List String)
  | str (s : String)
  | scalar (typeName : String)
deriving DecidableEq

/-- Python substring membership `needle in haystack` for strings. -/
def pyInStr (needle haystack : String) : Bool :=
  (List.range (haystack.length + 1)).any fun i => needle.isPrefixOf (haystack.drop i)

/-- Python `field in data` (api.py line 103) for each shape the parsed
body can have: key membership for dicts, element membership for lists,
substring membership for strings, and a `TypeError` for non-container
scalars, which do not support membership. -/
def pyContains (body : ParsedJson) (field : String) : Except String Bool :=
  match body with
  | .obj data => .ok (data.lookup field).isSome
  | .arr strElems => .ok (strElems.contains field)
  | .str s => .ok (pyInStr field s)
  | .scalar t => .error ("argument of type '" ++ t ++ "' is not iterable")

/-- Python subscription `data[field]` with a string key (api.py lines
107-110), per body shape: dict value lookup (`KeyError` when the key is
absent — unreachable after the membership loop); `TypeError` for lists
and strings, whose indices must be integers; `TypeError` for scalars,
which are not subscriptable (also unreachable, since membership already
raised for them). -/
def pySubscript (body : ParsedJson) (field : String) : Except String FieldVal :=
  match body with
  | .obj data =>
    match data.lookup field with
    | some v => .ok v
    | none => .error ("KeyError: " ++ field)
  | .arr _ => .error "list indices must be integers or slices, not str"
  | .str _ => .error "string indices must be integers"
  | .scalar t => .error ("'" ++ t ++ "' object is not subscriptable")

/-- api.py lines 107-110: `float(data[field])` — the subscription, then
the float coercion, either of which can raise. -/
def pyFloatOf (body : ParsedJson) (f : String) : Except String ℚ :=
  match pySubscript body f with
  | .error m => .error m
  | .ok (.num q) => .ok q
  | .ok (.bad m) => .error m

/-- api.py lines 102-104 over a general parsed body: the loop `for field
in required_fields: if field not in data: return ... 400` — the first
field whose membership test returns `False`, or the `TypeError` when the
body does not support membership at all. -/
def firstMissingIn (body : ParsedJson) : List String → Except String (Option String)
  | [] => .ok none
  | f :: fs =>
    match pyContains body f with
    | .error m => .error m
    | .ok true => firstMissingIn body fs
    | .ok false => .ok (some f)

/-- Whether a parsed body is a JSON object. -/
def ParsedJson.isObj : ParsedJson → Bool
  | .obj _ => true
  | _ => false

/-- api.py line 116: `scaler.transform(input_raw)` on the single row —
sklearn's `StandardScaler.transform` computes `(x - mean_) / scale_`
componentwise. -/
def Scaler.transform (sc : Scaler) (xs : List ℚ) : List ℚ :=
  List.zipWith (fun x ms => (x - ms.1) / ms.2) xs (sc.mean.zip sc.scale)

/-- Python list indexing `xs[i]` for a possibly negative integer index:
a negative index `i` counts from the end (`xs[len + i]`); out of range
(in either direction) raises `IndexError`, modelled as `none`. -/
def pyListGet (xs : List String) (i : Int) : Option String :=
  if 0 ≤ i then xs[i.toNat]?
  else if 0 ≤ (xs.length : Int) + i then xs[((xs.length : Int) + i).toNat]?
  else none

/-- api.py line 123: `label_classes[int(prediction)] if int(prediction) <
len(label_classes) else 'Unknown'`.  Note the guard only bounds the index
from above; a negative index reaches Python's negative indexing. -/
def labelFor (classes : List String) (idx : Int) : Except String String :=
  if idx < (classes.length : Int) then
    match pyListGet classes idx with
    | some s => .ok s
    | none => .error "IndexError: list index out of range"
  else .ok "Unknown"

/-- api.py line 124: `max(probabilities)` — raises `ValueError` on an
empty sequence, otherwise the maximum entry. -/
def pyMax : List ℚ → Except String ℚ
  | [] => .error "max() arg is an empty sequence"
  | x :: xs => .ok (xs.foldl max x)

/-- Python dict assignment `d[k] = v` on an insertion-ordered dict:
overwrites in place if `k` is already a key, otherwise appends. -/
def dictInsert (d : List (String × ℚ)) (k : String) (v : ℚ) : List (String × ℚ) :=
  if d.any (fun p => p.1 == k) then d.map (fun p => if p.1 == k then (k, v) else p)
  else d ++ [(k, v)]

/-- api.py lines 127-130, the loop body: `for i, label in
enumerate(label_classes): if i < len(probabilities): prob_dict[label] =
float(probabilities[i])`, with `i` the running index. -/
def buildProbDictAux (probs : List ℚ) : Nat → List (String × ℚ) → List String → List (String × ℚ)
  | _, d, [] => d
  | i, d, l :: ls =>
    match probs[i]? with
    | some q => buildProbDictAux probs (i + 1) (dictInsert d l q) ls
    | none => buildProbDictAux probs (i + 1) d ls

/-- api.py lines 127-130: the completed `prob_dict`. -/
def buildProbDict (classes : List String) (probs : List ℚ) : List (String × ℚ) :=
  buildProbDictAux probs 0 [] classes

/-- The JSON body of a successful `/predict` response (api.py lines
132-143). -/
structure PredictSuccess where
  prediction : Int
  label : String
  confidence : ℚ
  probabilities : List (String × ℚ)
  input : List ℚ
deriving DecidableEq

/-- Outcome of one `/predict` request: a 200 success body, or an error
response `(status, {'error': message})`. -/
inductive PredictResult where
  | ok (resp : PredictSuccess)
  | err (status : Nat) (error : String)
deriving DecidableEq

/-- api.py lines 119-146 given the already-computed `prediction` and
`probabilities`: label lookup (possible `IndexError` → caught → 500),
`max` (possible `ValueError` → caught → 500), probability dict, response
assembly.  `t c p h` are the parsed input values echoed back. -/
def respondWith (classes : List String) (prediction : Int) (probabilities : List ℚ)
    (t c p h : ℚ) : PredictResult :=
  match labelFor classes prediction with
  | .error m => .err 500 m
  | .ok lbl =>
    match pyMax probabilities with
    | .error m => .err 500 m
    | .ok conf =>
      .ok { prediction := prediction, label := lbl, confidence := conf,
            probabilities := buildProbDict classes probabilities,
            input := [t, c, p, h] }

/-- api.py lines 113-146 after the four floats are extracted: assemble
`input_raw = [[temp, co2, pm25, humidity]]`, scale it, run the classifier
on the scaled row, and shape the response. -/
def runInference (model : Model) (scaler : Scaler) (classes : List String)
    (t c p h : ℚ) : PredictResult :=
  let input_raw := [t, c, p, h]
  let input_scaled := scaler.transform input_raw
  respondWith classes (model.predictFn input_scaled) (model.predictProbaFn input_scaled) t c p h

/-- api.py lines 73-146, the whole `/predict` handler: unavailable check,
then the parsed JSON body of any shape (a `None` body makes `field not in
data` raise `TypeError`, caught by the blanket handler → 500; a scalar
body raises the same way; object, array and string bodies run the
membership loop), missing-field validation (400), subscription and float
coercion (exception → 500), then inference. -/
def predict (st : ServiceState) (body : Option ParsedJson) : PredictResult :=
  match st.model, st.scaler with
  | some model, some scaler =>
    match body with
    | none => .err 500 "argument of type 'NoneType' is not iterable"
    | some data =>
      match firstMissingIn data requiredFields with
      | .error m => .err 500 m
      | .ok (some f) => .err 400 ("Missing field: " ++ f)
      | .ok none =>
        match pyFloatOf data "temperature" with
        | .error m => .err 500 m
        | .ok temp =>
          match pyFloatOf data "co2" with
          | .error m => .err 500 m
          | .ok co2 =>
            match pyFloatOf data "pm25" with
            | .error m => .err 500 m
            | .ok pm25 =>
              match pyFloatOf data "humidity" with
              | .error m => .err 500 m
              | .ok humidity =>
                runInference model scaler st.label_classes temp co2 pm25 humidity
  | _, _ => .err 500 "Model or scaler not loaded"

/-- The JSON body of a `/health` response (api.py lines 64-71). -/
structure HealthResponse where
  status : String
  model_loaded : Bool
  scaler_loaded : Bool
  model_type : String
deriving DecidableEq

/-- api.py lines 64-71: the `/health` handler — a pure function of the
globals, always HTTP 200, no side effects. -/
def health_check (st : ServiceState) : Nat × HealthResponse :=
  (200, { status := "healthy",
          model_loaded := st.model.isSome,
          scaler_loaded := st.scaler.isSome,
          model_type := "AdaBoost + StandardScaler" })

/-- The result of `pickle.load` in `load_model_bundle` (api.py lines
26-31), when deserialization itself succeeds: a dict which may or may not
contain each expected key (`bundle['model']` etc. raise `KeyError` when
absent). -/
structure BundleDict where
  model : Option Model
  scaler : Option Scaler
  classes : Option (List String)
  feature_names : Option (List String)

/-- api.py lines 18-21: the globals before `load_model_bundle` runs. -/
def initialState : ServiceState :=
  { model := none, scaler := none, label_classes := [] }

/-- api.py lines 23-41, `load_model_bundle`: `pickled = none` models
`pickle.load` (or `open`) raising, in which case nothing is assigned.
Otherwise the globals are assigned sequentially — `model`, then `scaler`,
then `label_classes` — and a missing key aborts mid-way, leaving the
earlier assignments in place; the `feature_names` access in the success
print (line 36) happens after all three assignments.  Returns the new
state and the function's boolean result. -/
def load_model_bundle (pickled : Option BundleDict) (st : ServiceState) :
    ServiceState × Bool :=
  match pickled with
  | none => (st, false)
  | some b =>
    match b.model with
    | none => (st, false)
    | some m =>
      match b.scaler with
      | none => ({ st with model := some m }, false)
      | some sc =>
        match b.classes with
        | none => ({ st with model := some m, scaler := some sc }, false)
        | some cls =>
          match b.feature_names with
          | none =>
            ({ st with model := some m, scaler := some sc, label_classes := cls }, false)
          | some _ =>
            ({ st with model := some m, scaler := some sc, label_classes := cls }, true)

/-! ## Training side: `ml_model/train_model.py` -/

/-- The input dataset, as loaded by `pd.read_csv`.  pandas columns are
dynamically typed; per the dataset contract the four sensor columns are
numeric and the label column is categorical, so the embedding keeps
numeric columns and string columns in two name-keyed maps.  Column
presence (used by the missing-column error path) is name lookup. -/
structure DataFrame where
  numCols : List (String × List ℚ)
  strCols : List (String × List String)

/-- The exceptions pandas raises inside `train_adaboost_model` before any
fitting: `df[[...]]` raises a `KeyError` naming every requested column
not in the index (train_model.py line 36), and `df['Air_Quality_Label']`
raises a `KeyError` naming that column (line 40). -/
inductive TrainError where
  | missingColumns (names : List String)
  | missingLabelColumn (name : String)
deriving DecidableEq

/-- train_model.py line 36: the feature column names, in order. -/
def featureColumns : List String := ["air_temperature", "CO2", "pm2_5", "humidity"]

/-- train_model.py line 40: the label column name. -/
def labelColumn : String := "Air_Quality_Label"

/-- The feature columns requested at line 36 that are absent from the
dataset — the list a pandas `KeyError` would name. -/
def missingFeatureColumns (df : DataFrame) : List String :=
  featureColumns.filter (fun c => (df.numCols.lookup c).isNone)

/-- Row-major assembly of the four feature columns, in the fixed order of
`featureColumns` (the row layout `X` has when handed to the library). -/
def makeRows : List ℚ → List ℚ → List ℚ → List ℚ → List (List ℚ)
  | a :: as, b :: bs, c :: cs, d :: ds => [a, b, c, d] :: makeRows as bs cs ds
  | _, _, _, _ => []

/-- train_model.py line 36: `X = df[['air_temperature', 'CO2', 'pm2_5',
'humidity']]` — fails with the pandas `KeyError` if any requested column
is missing, otherwise the row-major feature matrix. -/
def selectFeatures (df : DataFrame) : Except TrainError (List (List ℚ)) :=
  match df.numCols.lookup "air_temperature", df.numCols.lookup "CO2",
        df.numCols.lookup "pm2_5", df.numCols.lookup "humidity" with
  | some ca, some cb, some cc, some cd => .ok (makeRows ca cb cc cd)
  | _, _, _, _ => .error (.missingColumns (missingFeatureColumns df))

/-- The state of a fitted `StandardScaler` after `fit`: sklearn stores the
per-feature `mean_` and `var_`; the transform divisor is
`scale_ = _handle_zeros_in_scale(sqrt(var_))`, i.e. `sqrt(var_)` with
zeros replaced by 1 (documented sklearn behaviour).  Since `sqrt` of a
rational is irrational, the embedding stores `mean_` and `var_` and works
with `scaleSq` (the square of `scale_`) below. -/
structure FittedScaler where
  mean : List ℚ
  var : List ℚ
deriving DecidableEq

/-- Arithmetic mean of a column (sklearn `mean_`; 0 on an empty column). -/
def colMean (xs : List ℚ) : ℚ := xs.sum / xs.length

/-- Population variance of a column (sklearn `var_`, ddof = 0). -/
def colVar (xs : List ℚ) : ℚ :=
  ((xs.map (fun x => (x - colMean xs) ^ 2)).sum) / xs.length

/-- train_model.py lines 62-63: the `fit` half of
`StandardScaler().fit_transform` — column means and variances of the
row-major matrix. -/
def fitStandardScaler (rows : List (List ℚ)) : FittedScaler :=
  { mean := rows.transpose.map colMean, var := rows.transpose.map colVar }

/-- The square of the fitted divisor `scale_`: sklearn sets
`scale_[j] = 1` when `sqrt(var_[j]) = 0` and `sqrt(var_[j])` otherwise,
so `scale_[j] = sqrt(scaleSq[j])` componentwise and `scale_[j] ≠ 0` iff
`scaleSq[j] ≠ 0`. -/
def FittedScaler.scaleSq (sc : FittedScaler) : List ℚ :=
  sc.var.map (fun v => if v = 0 then 1 else v)

/-- The fitted AdaBoost classifier, opaque except for its `predict`
method (external library). -/
structure AdaClassifier where
  predictRows : List (List ℚ) → List Nat

/-- The external library operations `train_adaboost_model` delegates to,
each a deterministic function (every call site fixes `random_state=42`,
so the real calls are deterministic too): `LabelEncoder.fit_transform`
(with the resulting `classes_`), the stratified seeded 80/20
`train_test_split`, `SMOTE.fit_resample`, `StandardScaler.transform`
(whose divisor `sqrt(var_)`-with-zeros-replaced is irrational, hence
abstracted; the fit half is concrete above), and `AdaBoostClassifier.fit`. -/
structure TrainLib where
  encodeLabels : List String → List Nat × List String
  trainTestSplit : List (List ℚ) → List Nat →
    (List (List ℚ) × List (List ℚ) × List Nat × List Nat)
  smote : List (List ℚ) → List Nat → (List (List ℚ) × List Nat)
  applyScaler : FittedScaler → List (List ℚ) → List (List ℚ)
  fitAdaBoost : List (List ℚ) → List Nat → AdaClassifier

/-- What `train_adaboost_model` computes: the returned triple
(classifier, scaler, label classes) plus the intermediate matrices and
label vectors, surfaced so the dataflow can be specified (in the Python
they are locals; the metric computations of lines 79-93 are print-only
reporting and are not modelled). -/
structure TrainOutput where
  classifier : AdaClassifier
  scaler : FittedScaler
  classes : List String
  X_train_smote_scaled : List (List ℚ)
  X_test_scaled : List (List ℚ)
  y_train_smote : List Nat
  y_test : List Nat
  y_pred : List Nat

/-- train_model.py lines 28-95, `train_adaboost_model`: select the four
feature columns (line 36), encode the label column (lines 39-40), split
80/20 stratified (lines 47-49), SMOTE the training split only (lines
55-56), fit the scaler on the SMOTEd training features and transform both
splits with it (lines 62-64), fit AdaBoost on the scaled SMOTEd training
data (lines 72-73), predict on the scaled held-out split (line 76). -/
def train_adaboost_model (lib : TrainLib) (df : DataFrame) :
    Except TrainError TrainOutput :=
  match selectFeatures df with
  | .error e => .error e
  | .ok X =>
    match df.strCols.lookup labelColumn with
    | none => .error (.missingLabelColumn labelColumn)
    | some rawLabels =>
      let (y, classes) := lib.encodeLabels rawLabels
      let (X_train, X_test, y_train, y_test) := lib.trainTestSplit X y
      let (X_train_smote, y_train_smote) := lib.smote X_train y_train
      let scaler := fitStandardScaler X_train_smote
      let X_train_smote_scaled := lib.applyScaler scaler X_train_smote
      let X_test_scaled := lib.applyScaler scaler X_test
      let adaboost_classifier := lib.fitAdaBoost X_train_smote_scaled y_train_smote
      let y_pred := adaboost_classifier.predictRows X_test_scaled
      .ok { classifier := adaboost_classifier, scaler := scaler, classes := classes,
            X_train_smote_scaled := X_train_smote_scaled,
            X_test_scaled := X_test_scaled,
            y_train_smote := y_train_smote, y_test := y_test, y_pred := y_pred }

/-- Whether a JSON field value makes `float(...)` raise. -/
def FieldVal.IsBad : FieldVal → Prop
  | .num _ => False
  | .bad _ => True

/-! ## Concrete instances used to evaluate the embedding -/

/-- A trivial loaded classifier: always class 0, distribution `[1]`. -/
def wModel : Model := { predictFn := fun _ => 0, predictProbaFn := fun _ => [1] }

/-- A classifier returning the out-of-range index `-1` (the embedding's
classifier type, like numpy's, allows any integer index). -/
def negModel : Model := { predictFn := fun _ => -1, predictProbaFn := fun _ => [1] }

/-- A classifier with a two-entry distribution (the embedding does not
require distributions to be normalised, so integer weights keep the
witness computations in the kernel-evaluable fragment). -/
def twoClassModel : Model :=
  { predictFn := fun _ => 0, predictProbaFn := fun _ => [1, 2] }

/-- An identity-like fitted scaler (mean 0, scale 1 per feature). -/
def idScaler : Scaler := { mean := [0, 0, 0, 0], scale := [1, 1, 1, 1] }

/-- A request body with all four fields numeric. -/
def fullBody : RequestBody :=
  [("temperature", .num 1), ("co2", .num 2), ("pm25", .num 3), ("humidity", .num 4)]

/-- A request body missing exactly `co2`; one of the remaining fields is
not even numeric. -/
def missBody : RequestBody :=
  [("temperature", .bad "boom"), ("pm25", .num 3), ("humidity", .num 4)]

/-- A request body with all four fields present but `pm25` non-numeric. -/
def badBody : RequestBody :=
  [("temperature", .num 1), ("co2", .num 2), ("pm25", .bad "could not convert string to float"),
   ("humidity", .num 4)]

/-- A deserialized bundle dict that contains a model but no scaler key:
`load_model_bundle` assigns the model global, then fails. -/
def partialBundle : BundleDict :=
  { model := some wModel, scaler := none, classes := none, feature_names := none }

/-- A concrete instantiation of the external training library with
trivial deterministic operations, used to evaluate the pipeline. -/
def wLib : TrainLib :=
  { encodeLabels := fun ls => (ls.map fun _ => 0, ["Good"]),
    trainTestSplit := fun X y => (X.take 1, X.drop 1, y.take 1, y.drop 1),
    smote := fun X y => (X, y),
    applyScaler := fun _ X => X,
    fitAdaBoost := fun _ _ => { predictRows := fun rows => rows.map fun _ => 0 } }

/-- A two-row dataset with all required columns present. -/
def wDf : DataFrame :=
  { numCols := [("air_temperature", [1, 2]), ("CO2", [3, 4]),
                ("pm2_5", [5, 6]), ("humidity", [7, 8])],
    strCols := [("Air_Quality_Label", ["Good", "Bad"])] }

/-- What `train_adaboost_model wLib wDf` evaluates to (the scaler field is
kept as the unevaluated fit of the single training row; its value is
`{ mean := [1, 3, 5, 7], var := [0, 0, 0, 0] }`). -/
def wOut : TrainOutput :=
  { classifier := { predictRows := fun rows => rows.map fun _ => 0 },
    scaler := fitStandardScaler [[1, 3, 5, 7]],
    classes := ["Good"],
    X_train_smote_scaled := [[1, 3, 5, 7]],
    X_test_scaled := [[2, 4, 6, 8]],
    y_train_smote := [0], y_test := [0], y_pred := [0] }

/-- A dataset whose `CO2` column is absent. -/
def dfMissingCO2 : DataFrame :=
  { numCols := [("air_temperature", [1, 2]), ("pm2_5", [5, 6]), ("humidity", [7, 8])],
    strCols := [("Air_Quality_Label", ["Good", "Bad"])] }

/-! ## Helper lemmas -/

theorem le_foldl_max (a : ℚ) (l : List ℚ) : a ≤ l.foldl max a := by
  induction l generalizing a with
  | nil => exact le_refl a
  | cons x xs ih => exact le_trans (le_max_left a x) (ih (max a x))

theorem foldl_max_mem (a : ℚ) (l : List ℚ) : l.foldl max a = a ∨ l.foldl max a ∈ l := by
  induction l generalizing a with
  | nil => exact Or.inl rfl
  | cons x xs ih =>
    rcases ih (max a x) with h | h
    · rcases max_choice a x with hm | hm
      · exact Or.inl (by rw [List.foldl_cons, h, hm])
      · exact Or.inr (by rw [List.foldl_cons, h, hm]; exact List.mem_cons_self x xs)
    · exact Or.inr (List.mem_cons_of_mem x h)

theorem foldl_max_le (a : ℚ) (l : List ℚ) : ∀ x ∈ l, x ≤ l.foldl max a := by
  induction l generalizing a with
  | nil => intro x hx; exact absurd hx (List.not_mem_nil x)
  | cons y ys ih =>
    intro x hx
    rcases List.mem_cons.mp hx with rfl | hx
    · exact le_trans (le_max_right a x) (le_foldl_max (max a x) ys)
    · exact ih (max a y) x hx

theorem dictInsert_fresh (d : List (String × ℚ)) (k : String) (v : ℚ)
    (h : ∀ pr ∈ d, pr.1 ≠ k) : dictInsert d k v = d ++ [(k, v)] := by
  have hany : d.any (fun p => p.1 == k) = false := by
    simp only [List.any_eq_false]
    intro p hp
    exact beq_eq_false_iff_ne.mpr (h p hp) ▸ (by simp [beq_eq_false_iff_ne.mpr (h p hp)])
  simp [dictInsert, hany]

theorem getElem?_some_drop (l : List ℚ) (n : Nat) (q : ℚ) (h : l[n]? = some q) :
    l.drop n = q :: l.drop (n + 1) := by
  have hn : n < l.length := by
    by_contra hc
    simp [List.getElem?_eq_none_iff.mpr (le_of_not_lt hc)] at h
  rw [List.drop_eq_getElem_cons hn]
  congr 1
  rw [List.getElem?_eq_getElem hn] at h
  exact Option.some_inj.mp h

theorem getElem?_none_drop (l : List ℚ) (n : Nat) (h : l[n]? = none) :
    l.drop n = [] := by
  have := List.getElem?_eq_none_iff.mp h
  exact List.drop_eq_nil_of_le this

theorem buildProbDictAux_eq_zip (probs : List ℚ) (ls : List String) :
    ∀ (i : Nat) (d : List (String × ℚ)), ls.Nodup →
      (∀ pr ∈ d, pr.1 ∉ ls) →
      buildProbDictAux probs i d ls = d ++ ls.zip (probs.drop i) := by
  induction ls with
  | nil => intro i d _ _; simp [buildProbDictAux]
  | cons l ls ih =>
    intro i d hnd hdisj
    have hl_not_ls : l ∉ ls := (List.nodup_cons.mp hnd).1
    have hnd' : ls.Nodup := (List.nodup_cons.mp hnd).2
    match hpi : probs[i]? with
    | some q =>
      have hdrop : probs.drop i = q :: probs.drop (i + 1) := getElem?_some_drop probs i q hpi
      have hins : dictInsert d l q = d ++ [(l, q)] := by
        refine dictInsert_fresh d l q ?_
        intro pr hpr hcontra
        exact hdisj pr hpr (hcontra ▸ List.mem_cons_self l ls)
      have hdisj' : ∀ pr ∈ d ++ [(l, q)], pr.1 ∉ ls := by
        intro pr hpr
        rcases List.mem_append.mp hpr with hpr | hpr
        · exact fun hc => hdisj pr hpr (List.mem_cons_of_mem l hc)
        · have : pr = (l, q) := List.mem_singleton.mp hpr
          rw [this]
          exact hl_not_ls
      calc buildProbDictAux probs i d (l :: ls)
          = buildProbDictAux probs (i + 1) (dictInsert d l q) ls := by
            simp [buildProbDictAux, hpi]
        _ = (d ++ [(l, q)]) ++ ls.zip (probs.drop (i + 1)) := by
            rw [hins]; exact ih (i + 1) (d ++ [(l, q)]) hnd' hdisj'
        _ = d ++ (l :: ls).zip (probs.drop i) := by
            rw [hdrop, List.zip_cons_cons, List.append_assoc]; rfl
    | none =>
      have hdrop : probs.drop i = [] := getElem?_none_drop probs i hpi
      have hdrop' : probs.drop (i + 1) = [] := by
        refine List.drop_eq_nil_of_le ?_
        have := List.getElem?_eq_none_iff.mp hpi
        omega
      calc buildProbDictAux probs i d (l :: ls)
          = buildProbDictAux probs (i + 1) d ls := by simp [buildProbDictAux, hpi]
        _ = d ++ ls.zip (probs.drop (i + 1)) := by
            refine ih (i + 1) d hnd' ?_
            intro pr hpr
            exact fun hc => hdisj pr hpr (List.mem_cons_of_mem l hc)
        _ = d ++ (l :: ls).zip (probs.drop i) := by rw [hdrop, hdrop']; simp

theorem buildProbDict_eq_zip (classes : List String) (probs : List ℚ)
    (hnd : classes.Nodup) : buildProbDict classes probs = classes.zip probs := by
  have := buildProbDictAux_eq_zip probs classes 0 [] hnd (by intro pr hpr; cases hpr)
  simpa [buildProbDict] using this

theorem firstMissing_all_present (data : RequestBody) (fs : List String)
    (h : ∀ f ∈ fs, (data.lookup f).isSome) : firstMissing data fs = none := by
  induction fs with
  | nil => rfl
  | cons f fs ih =>
    have hf := h f (List.mem_cons_self f fs)
    simp [firstMissing, hf]
    exact ih fun g hg => h g (List.mem_cons_of_mem f hg)

theorem firstMissing_some_spec (data : RequestBody) (fs : List String) (f : String)
    (h : firstMissing data fs = some f) : f ∈ fs ∧ data.lookup f = none := by
  induction fs with
  | nil => cases h
  | cons g gs ih =>
    by_cases hg : (data.lookup g).isSome
    · have : firstMissing data (g :: gs) = firstMissing data gs := by
        simp [firstMissing, hg]
      rw [this] at h
      obtain ⟨hmem, hnone⟩ := ih h
      exact ⟨List.mem_cons_of_mem g hmem, hnone⟩
    · have : firstMissing data (g :: gs) = some g := by simp [firstMissing, hg]
      rw [this] at h
      obtain rfl : g = f := Option.some_inj.mp h
      exact ⟨List.mem_cons_self g gs, Option.not_isSome_iff_eq_none.mp hg⟩

theorem firstMissing_unique (data : RequestBody) (fs : List String) (f : String)
    (hf : f ∈ fs) (hmiss : data.lookup f = none)
    (hothers : ∀ g ∈ fs, g ≠ f → (data.lookup g).isSome) :
    firstMissing data fs = some f := by
  induction fs with
  | nil => cases hf
  | cons g gs ih =>
    by_cases hgf : g = f
    · subst hgf
      simp [firstMissing, hmiss]
    · have hg : (data.lookup g).isSome := hothers g (List.mem_cons_self g gs) hgf
      have hf' : f ∈ gs := by
        rcases List.mem_cons.mp hf with rfl | h
        · exact absurd rfl (fun hcontra => hgf hcontra.symm)
        · exact h
      simp only [firstMissing, hg, if_true]
      exact ih hf' fun g' hg' => hothers g' (List.mem_cons_of_mem g hg')

theorem firstMissingIn_obj (data : RequestBody) (fs : List String) :
    firstMissingIn (.obj data) fs = .ok (firstMissing data fs) := by
  induction fs with
  | nil => rfl
  | cons f fs ih =>
    cases hf : (data.lookup f).isSome
    · simp [firstMissingIn, pyContains, firstMissing, hf]
    · simp [firstMissingIn, pyContains, firstMissing, hf, ih]

theorem firstMissingIn_some_spec (body : ParsedJson) (fs : List String) (f : String)
    (h : firstMissingIn body fs = .ok (some f)) :
    f ∈ fs ∧ pyContains body f = .ok false := by
  induction fs with
  | nil => simp [firstMissingIn] at h
  | cons g gs ih =>
    rcases hg : pyContains body g with m | b
    · simp [firstMissingIn, hg] at h
    · cases b
      · have hgf : (Except.ok (some g) : Except String (Option String)) = .ok (some f) := by
          rw [← h]; simp [firstMissingIn, hg]
        obtain rfl : g = f := by simpa using hgf
        exact ⟨List.mem_cons_self g gs, hg⟩
      · have h' : firstMissingIn body gs = .ok (some f) := by
          rw [← h]; simp [firstMissingIn, hg]
        obtain ⟨hmem, hfl⟩ := ih h'
        exact ⟨List.mem_cons_of_mem g hmem, hfl⟩

theorem labelFor_ok_of_ge (classes : List String) (idx : Int)
    (hge : -(classes.length : Int) ≤ idx) : ∃ s, labelFor classes idx = .ok s := by
  unfold labelFor
  by_cases hlt : idx < (classes.length : Int)
  · by_cases h0 : 0 ≤ idx
    · have hn : idx.toNat < classes.length := by omega
      refine ⟨classes.get ⟨idx.toNat, hn⟩, ?_⟩
      simp [hlt, pyListGet, h0, List.getElem?_eq_getElem hn]
    · have h0' : 0 ≤ (classes.length : Int) + idx := by omega
      have hn : ((classes.length : Int) + idx).toNat < classes.length := by omega
      refine ⟨classes.get ⟨((classes.length : Int) + idx).toNat, hn⟩, ?_⟩
      simp [hlt, pyListGet, h0, h0', List.getElem?_eq_getElem hn]
  · exact ⟨"Unknown", by simp [hlt]⟩

theorem labelFor_nonneg (classes : List String) (idx : Int) (h0 : 0 ≤ idx) :
    (idx.toNat < classes.length ∧
      ∃ s, classes[idx.toNat]? = some s ∧ labelFor classes idx = .ok s)
    ∨ (classes.length ≤ idx.toNat ∧ labelFor classes idx = .ok "Unknown") := by
  by_cases hlt : idx < (classes.length : Int)
  · have hn : idx.toNat < classes.length := by omega
    refine Or.inl ⟨hn, classes.get ⟨idx.toNat, hn⟩, List.getElem?_eq_getElem hn, ?_⟩
    simp [labelFor, hlt, pyListGet, h0, List.getElem?_eq_getElem hn]
  · have hn : classes.length ≤ idx.toNat := by omega
    exact Or.inr ⟨hn, by simp [labelFor, hlt]⟩

theorem predict_reduces (model : Model) (scaler : Scaler) (classes : List String)
    (t c p h : ℚ) (data : RequestBody)
    (ht : data.lookup "temperature" = some (.num t))
    (hc : data.lookup "co2" = some (.num c))
    (hp : data.lookup "pm25" = some (.num p))
    (hh : data.lookup "humidity" = some (.num h)) :
    predict ⟨some model, some scaler, classes⟩ (some (.obj data)) =
      runInference model scaler classes t c p h := by
  have h0 : firstMissing data requiredFields = none := by
    refine firstMissing_all_present data requiredFields ?_
    intro f hf
    simp only [requiredFields, List.mem_cons, List.not_mem_nil, or_false] at hf
    rcases hf with rfl | rfl | rfl | rfl
    · simp [ht]
    · simp [hc]
    · simp [hp]
    · simp [hh]
  have h1 : firstMissingIn (.obj data) requiredFields = .ok none := by
    rw [firstMissingIn_obj, h0]
  simp [predict, h1, pyFloatOf, pySubscript, ht, hc, hp, hh]

theorem respondWith_err_500 (classes : List String) (prediction : Int)
    (probabilities : List ℚ) (t c p h : ℚ) (s : Nat) (m : String)
    (he : respondWith classes prediction probabilities t c p h = .err s m) : s = 500 := by
  unfold respondWith at he
  rcases hl : labelFor classes prediction with m' | lbl
  · rw [hl] at he; cases he; rfl
  · rw [hl] at he
    rcases hm : pyMax probabilities with m'' | conf
    · rw [hm] at he; cases he; rfl
    · rw [hm] at he; cases he

/-! ## Claims about the serving path -/

/-- C1: for every predict request whose four fields are present and parse
as numbers, the vector handed to the classifier is assembled in the fixed
order [temperature, co2, pm25, humidity] with each component equal to
`(value - mean) / std` for the scaler parameters fixed at training time,
and the outcome is a function of those four values and the loaded bundle
alone (no other request appears on the right-hand side). -/
theorem C1_scaling_order_and_formula (model : Model) (scaler : Scaler)
    (classes : List String) (m0 m1 m2 m3 s0 s1 s2 s3 t c p h : ℚ)
    (data : RequestBody)
    (hm : scaler.mean = [m0, m1, m2, m3]) (hs : scaler.scale = [s0, s1, s2, s3])
    (ht : data.lookup "temperature" = some (.num t))
    (hc : data.lookup "co2" = some (.num c))
    (hp : data.lookup "pm25" = some (.num p))
    (hh : data.lookup "humidity" = some (.num h)) :
    scaler.transform [t, c, p, h] =
      [(t - m0) / s0, (c - m1) / s1, (p - m2) / s2, (h - m3) / s3]
    ∧ predict ⟨some model, some scaler, classes⟩ (some (.obj data)) =
        respondWith classes
          (model.predictFn [(t - m0) / s0, (c - m1) / s1, (p - m2) / s2, (h - m3) / s3])
          (model.predictProbaFn [(t - m0) / s0, (c - m1) / s1, (p - m2) / s2, (h - m3) / s3])
          t c p h := by
  have htr : scaler.transform [t, c, p, h] =
      [(t - m0) / s0, (c - m1) / s1, (p - m2) / s2, (h - m3) / s3] := by
    simp [Scaler.transform, hm, hs]
  refine ⟨htr, ?_⟩
  rw [predict_reduces model scaler classes t c p h data ht hc hp hh]
  simp [runInference, htr]

/-- C1 witness: the theorem evaluated at a concrete request and bundle. -/
theorem C1_witness :
    idScaler.transform [1, 2, 3, 4] =
      [((1 : ℚ) - 0) / 1, ((2 : ℚ) - 0) / 1, ((3 : ℚ) - 0) / 1, ((4 : ℚ) - 0) / 1]
    ∧ predict ⟨some wModel, some idScaler, ["A"]⟩ (some (.obj fullBody)) =
        respondWith ["A"]
          (wModel.predictFn [((1 : ℚ) - 0) / 1, ((2 : ℚ) - 0) / 1, ((3 : ℚ) - 0) / 1, ((4 : ℚ) - 0) / 1])
          (wModel.predictProbaFn [((1 : ℚ) - 0) / 1, ((2 : ℚ) - 0) / 1, ((3 : ℚ) - 0) / 1, ((4 : ℚ) - 0) / 1])
          1 2 3 4 :=
  C1_scaling_order_and_formula wModel idScaler ["A"] 0 0 0 0 1 1 1 1 1 2 3 4 fullBody
    rfl rfl rfl rfl rfl rfl

/-- C2: in every successful predict response reached with the four fields
parsed, the confidence is the maximum entry of the classifier's
probability distribution for this request (it is an entry, and bounds all
entries), and the probabilities dictionary is exactly the class names
paired positionally with the distribution, truncated to the shorter of
the two lists (the `List.zip`), tolerating a length mismatch.  The label
list is assumed duplicate-free, which is the §3 bijectivity invariant of
the label mapping. -/
theorem C2_confidence_and_prob_dict (model : Model) (scaler : Scaler)
    (classes : List String) (t c p h : ℚ) (data : RequestBody)
    (ht : data.lookup "temperature" = some (.num t))
    (hc : data.lookup "co2" = some (.num c))
    (hp : data.lookup "pm25" = some (.num p))
    (hh : data.lookup "humidity" = some (.num h))
    (hnd : classes.Nodup) (q : ℚ) (qs : List ℚ)
    (hprob : model.predictProbaFn (scaler.transform [t, c, p, h]) = q :: qs)
    (hpred : -(classes.length : Int) ≤ model.predictFn (scaler.transform [t, c, p, h])) :
    ∃ resp, predict ⟨some model, some scaler, classes⟩ (some (.obj data)) = .ok resp
      ∧ resp.confidence ∈ q :: qs
      ∧ (∀ x ∈ q :: qs, x ≤ resp.confidence)
      ∧ resp.probabilities = classes.zip (q :: qs) := by
  rw [predict_reduces model scaler classes t c p h data ht hc hp hh]
  obtain ⟨lbl, hlbl⟩ := labelFor_ok_of_ge classes
    (model.predictFn (scaler.transform [t, c, p, h])) hpred
  refine ⟨{ prediction := model.predictFn (scaler.transform [t, c, p, h]),
            label := lbl, confidence := qs.foldl max q,
            probabilities := buildProbDict classes (q :: qs),
            input := [t, c, p, h] }, ?_, ?_, ?_, ?_⟩
  · simp [runInference, respondWith, hlbl, hprob, pyMax]
  · rcases foldl_max_mem q qs with hmem | hmem
    · rw [hmem]; exact List.mem_cons_self q qs
    · exact List.mem_cons_of_mem q hmem
  · intro x hx
    rcases List.mem_cons.mp hx with rfl | hx
    · exact le_foldl_max x qs
    · exact foldl_max_le q qs x hx
  · exact buildProbDict_eq_zip classes (q :: qs) hnd

/-- C2 witness: concrete evaluation with two classes and a two-entry
distribution. -/
theorem C2_witness :
    ∃ resp, predict ⟨some twoClassModel, some idScaler, ["A", "B"]⟩ (some (.obj fullBody)) = .ok resp
      ∧ resp.confidence ∈ [(1 : ℚ), 2]
      ∧ (∀ x ∈ [(1 : ℚ), 2], x ≤ resp.confidence)
      ∧ resp.probabilities = (["A", "B"].zip [(1 : ℚ), 2]) :=
  C2_confidence_and_prob_dict twoClassModel idScaler ["A", "B"] 1 2 3 4 fullBody
    rfl rfl rfl rfl (by decide) 1 [2] rfl (by decide)

/-- C3 counterexample: a classifier that returns index `-1` against the
label list `["A", "B"]` yields a successful response whose `prediction`
is `-1` — not a valid index — while the label is `"B"` (Python negative
indexing wraps to the last class), not the `"Unknown"` sentinel, so the
claim fails for negative out-of-range indices. -/
theorem C3_counterexample :
    predict ⟨some negModel, some idScaler, ["A", "B"]⟩ (some (.obj fullBody)) =
      .ok { prediction := -1, label := "B", confidence := 1,
            probabilities := [("A", 1)], input := [1, 2, 3, 4] }
    ∧ ¬ ((0 ≤ (-1 : Int) ∧ ((-1 : Int)).toNat < (["A", "B"] : List String).length)
          ∨ ("B" : String) = "Unknown") :=
  ⟨by decide, by decide⟩

/-- C3 amended: restricted to non-negative classifier indices (the only
ones the label encoder produces), every successful response carries
either a valid index with the class name at that index, or the literal
`"Unknown"` label when the index is at or beyond the end of the label
list.  For negative indices the code instead applies Python negative
indexing (see the counterexample). -/
theorem C3_amended_label_mapping (model : Model) (scaler : Scaler)
    (classes : List String) (t c p h : ℚ) (data : RequestBody)
    (ht : data.lookup "temperature" = some (.num t))
    (hc : data.lookup "co2" = some (.num c))
    (hp : data.lookup "pm25" = some (.num p))
    (hh : data.lookup "humidity" = some (.num h))
    (hq : model.predictProbaFn (scaler.transform [t, c, p, h]) ≠ [])
    (hpred : 0 ≤ model.predictFn (scaler.transform [t, c, p, h])) :
    ∃ resp, predict ⟨some model, some scaler, classes⟩ (some (.obj data)) = .ok resp
      ∧ resp.prediction = model.predictFn (scaler.transform [t, c, p, h])
      ∧ ((resp.prediction.toNat < classes.length ∧
            classes[resp.prediction.toNat]? = some resp.label)
          ∨ (classes.length ≤ resp.prediction.toNat ∧ resp.label = "Unknown")) := by
  rw [predict_reduces model scaler classes t c p h data ht hc hp hh]
  rcases hps : model.predictProbaFn (scaler.transform [t, c, p, h]) with _ | ⟨q, qs⟩
  · exact absurd hps hq
  rcases labelFor_nonneg classes (model.predictFn (scaler.transform [t, c, p, h])) hpred
    with ⟨hlt, s, hgs, hlbl⟩ | ⟨hge, hlbl⟩
  · refine ⟨{ prediction := model.predictFn (scaler.transform [t, c, p, h]),
              label := s, confidence := qs.foldl max q,
              probabilities := buildProbDict classes (q :: qs),
              input := [t, c, p, h] }, ?_, rfl, Or.inl ⟨hlt, hgs⟩⟩
    simp [runInference, respondWith, hlbl, hps, pyMax]
  · refine ⟨{ prediction := model.predictFn (scaler.transform [t, c, p, h]),
              label := "Unknown", confidence := qs.foldl max q,
              probabilities := buildProbDict classes (q :: qs),
              input := [t, c, p, h] }, ?_, rfl, Or.inr ⟨hge, rfl⟩⟩
    simp [runInference, respondWith, hlbl, hps, pyMax]

/-- C3 witness for the amended theorem: a concrete in-range prediction. -/
theorem C3_amended_witness :
    ∃ resp, predict ⟨some wModel, some idScaler, ["A"]⟩ (some (.obj fullBody)) = .ok resp
      ∧ resp.prediction = wModel.predictFn (idScaler.transform [1, 2, 3, 4])
      ∧ ((resp.prediction.toNat < (["A"] : List String).length ∧
            (["A"] : List String)[resp.prediction.toNat]? = some resp.label)
          ∨ ((["A"] : List String).length ≤ resp.prediction.toNat ∧ resp.label = "Unknown")) :=
  C3_amended_label_mapping wModel idScaler ["A"] 1 2 3 4 fullBody rfl rfl rfl rfl
    (by decide) (by decide)

/-- C4: in the Ready state, omitting exactly one of the four required
fields yields the 400 response naming exactly that field, whatever the
other fields hold (they need only be present — even non-coercible values
are fine), and the outcome does not depend on the model or the scaler:
the request is rejected before any coercion, scaling or inference. -/
theorem C4_missing_field_names_field (model : Model) (scaler : Scaler)
    (classes : List String) (data : RequestBody) (f : String)
    (hf : f ∈ requiredFields) (hmiss : data.lookup f = none)
    (hothers : ∀ g ∈ requiredFields, g ≠ f → (data.lookup g).isSome) :
    predict ⟨some model, some scaler, classes⟩ (some (.obj data)) =
      .err 400 ("Missing field: " ++ f) := by
  have h0 : firstMissing data requiredFields = some f :=
    firstMissing_unique data requiredFields f hf hmiss hothers
  have hfm : firstMissingIn (.obj data) requiredFields = .ok (some f) := by
    rw [firstMissingIn_obj, h0]
  simp [predict, hfm]

/-- C4 witness: `co2` omitted, one remaining field not even numeric, and
the response still names exactly `co2`. -/
theorem C4_witness :
    predict ⟨some wModel, some idScaler, ["A"]⟩ (some (.obj missBody)) =
      .err 400 ("Missing field: " ++ "co2") :=
  C4_missing_field_names_field wModel idScaler ["A"] missBody "co2"
    (by decide) (by decide) (by decide)

/-- C5 counterexample: a deserialized bundle dict holding a model but no
scaler key makes `load_model_bundle` fail (it returns `False`), yet the
resulting state answers health checks with `model_loaded: true` — the
claim's `model_loaded: false and scaler_loaded: false` does not hold for
every failed load. -/
theorem C5_counterexample :
    (load_model_bundle (some partialBundle) initialState).2 = false
    ∧ (health_check (load_model_bundle (some partialBundle) initialState).1).2.model_loaded = true
    ∧ (health_check (load_model_bundle (some partialBundle) initialState).1).2.scaler_loaded = false :=
  ⟨rfl, rfl, rfl⟩

/-- C5 amended: whenever the classifier or the scaler is absent, every
predict call returns the 500 unavailable-message response before any
processing; every health call returns 200 and reports the presence of
each artifact individually (so both flags are false exactly when nothing
was assigned, as after a failed deserialization from the initial state,
but a partially-assigned load can leave `model_loaded` true); health is a
pure function of the state — it never fails and has no side effects. -/
theorem C5_amended_unavailable_behaviour :
    (∀ (st : ServiceState) (body : Option ParsedJson),
      st.model = none ∨ st.scaler = none →
        predict st body = .err 500 "Model or scaler not loaded")
    ∧ (∀ st : ServiceState,
        (health_check st).1 = 200
        ∧ (health_check st).2.model_loaded = st.model.isSome
        ∧ (health_check st).2.scaler_loaded = st.scaler.isSome)
    ∧ (load_model_bundle none initialState).1.model = none
    ∧ (load_model_bundle none initialState).1.scaler = none := by
  refine ⟨?_, fun st => ⟨rfl, rfl, rfl⟩, rfl, rfl⟩
  rintro ⟨om, os, cls⟩ body h
  rcases om with _ | m
  · rfl
  · rcases os with _ | sc
    · rfl
    · rcases h with h | h <;> cases h

/-- C5 witness for the amended theorem: the initial (nothing-loaded)
state rejects a predict call with the unavailable message. -/
theorem C5_witness :
    predict ⟨none, none, []⟩ none = .err 500 "Model or scaler not loaded" :=
  C5_amended_unavailable_behaviour.1 ⟨none, none, []⟩ none (Or.inl rfl)

/-- C6: in the Ready state, a request with all four fields present but at
least one value not coercible to a number produces a 500 response (the
generic processing-error path), never the 400 missing-field shape; the
handler is a total function of the request alone, so the failure does not
affect any other request. -/
theorem C6_non_numeric_is_500 (model : Model) (scaler : Scaler)
    (classes : List String) (data : RequestBody) (vt vc vp vh : FieldVal)
    (ht : data.lookup "temperature" = some vt)
    (hc : data.lookup "co2" = some vc)
    (hp : data.lookup "pm25" = some vp)
    (hh : data.lookup "humidity" = some vh)
    (hbad : vt.IsBad ∨ vc.IsBad ∨ vp.IsBad ∨ vh.IsBad) :
    ∃ m, predict ⟨some model, some scaler, classes⟩ (some (.obj data)) = .err 500 m := by
  have h0 : firstMissing data requiredFields = none := by
    refine firstMissing_all_present data requiredFields ?_
    intro f hf
    simp only [requiredFields, List.mem_cons, List.not_mem_nil, or_false] at hf
    rcases hf with rfl | rfl | rfl | rfl
    · simp [ht]
    · simp [hc]
    · simp [hp]
    · simp [hh]
  have hfm : firstMissingIn (.obj data) requiredFields = .ok none := by
    rw [firstMissingIn_obj, h0]
  rcases vt with q1 | m1
  · rcases vc with q2 | m2
    · rcases vp with q3 | m3
      · rcases vh with q4 | m4
        · simp [FieldVal.IsBad] at hbad
        · exact ⟨m4, by simp [predict, hfm, pyFloatOf, pySubscript, ht, hc, hp, hh]⟩
      · exact ⟨m3, by simp [predict, hfm, pyFloatOf, pySubscript, ht, hc, hp]⟩
    · exact ⟨m2, by simp [predict, hfm, pyFloatOf, pySubscript, ht, hc]⟩
  · exact ⟨m1, by simp [predict, hfm, pyFloatOf, pySubscript, ht]⟩

/-- C6 witness: only `pm25` is non-numeric, and the response is a 500. -/
theorem C6_witness :
    ∃ m, predict ⟨some wModel, some idScaler, ["A"]⟩ (some (.obj badBody)) = .err 500 m :=
  C6_non_numeric_is_500 wModel idScaler ["A"] badBody
    (.num 1) (.num 2) (.bad "could not convert string to float") (.num 4)
    rfl rfl rfl rfl (Or.inr (Or.inr (Or.inl trivial)))

/-- C10 counterexample: a body parsing to the empty JSON array — not a
JSON object — still reaches the missing-field path: Python evaluates
`'temperature' not in []` to `True`, so the loaded service returns the
400 response naming `temperature`, refuting the clause that the
missing-field 400 path is reached only when the body parses to a JSON
object. -/
theorem C10_counterexample :
    predict ⟨some wModel, some idScaler, ["A"]⟩ (some (.arr [])) =
      .err 400 ("Missing field: " ++ "temperature")
    ∧ (ParsedJson.arr []).isObj = false :=
  ⟨by decide, rfl⟩

/-- C10 amended: a predict request whose parsed body is `None` is
answered by the generic 500 processing-error path (the membership test
raises `TypeError`), not by a 400 missing-field response, and the same
holds for any non-container scalar body (number or boolean); the
missing-field 400 path is reached exactly when the parsed body supports
Python's membership test — a JSON object, array, or string — and some
required field fails it. -/
theorem C10_amended_none_body_is_500 :
    (∀ (model : Model) (scaler : Scaler) (classes : List String),
      predict ⟨some model, some scaler, classes⟩ none =
        .err 500 "argument of type 'NoneType' is not iterable")
    ∧ (∀ (model : Model) (scaler : Scaler) (classes : List String) (t : String),
      predict ⟨some model, some scaler, classes⟩ (some (.scalar t)) =
        .err 500 ("argument of type '" ++ t ++ "' is not iterable"))
    ∧ (∀ (st : ServiceState) (body : Option ParsedJson) (msg : String),
        predict st body = .err 400 msg →
          ∃ b f, body = some b ∧ f ∈ requiredFields ∧
            pyContains b f = .ok false ∧ msg = "Missing field: " ++ f) := by
  refine ⟨fun model scaler classes => rfl, fun model scaler classes t => rfl, ?_⟩
  rintro ⟨om, os, cls⟩ body msg hpred
  rcases om with _ | model
  · simp [predict] at hpred
  rcases os with _ | scaler
  · simp [predict] at hpred
  rcases body with _ | data
  · simp [predict] at hpred
  rcases hfm : firstMissingIn data requiredFields with m | of
  · simp [predict, hfm] at hpred
  rcases of with _ | f
  · rcases h1 : pyFloatOf data "temperature" with m | t
    · simp [predict, hfm, h1] at hpred
    rcases h2 : pyFloatOf data "co2" with m | c
    · simp [predict, hfm, h1, h2] at hpred
    rcases h3 : pyFloatOf data "pm25" with m | p
    · simp [predict, hfm, h1, h2, h3] at hpred
    rcases h4 : pyFloatOf data "humidity" with m | h
    · simp [predict, hfm, h1, h2, h3, h4] at hpred
    have hri : runInference model scaler cls t c p h = .err 400 msg := by
      rw [← hpred]
      simp [predict, hfm, h1, h2, h3, h4]
    have h500 : (400 : Nat) = 500 := by
      refine respondWith_err_500 cls
        (model.predictFn (Scaler.transform scaler [t, c, p, h]))
        (model.predictProbaFn (Scaler.transform scaler [t, c, p, h])) t c p h 400 msg ?_
      rw [← hri]
      simp [runInference]
    cases h500
  · obtain ⟨hmem, hfalse⟩ := firstMissingIn_some_spec data requiredFields f hfm
    refine ⟨data, f, rfl, hmem, hfalse, ?_⟩
    have : PredictResult.err 400 ("Missing field: " ++ f) = .err 400 msg := by
      rw [← hpred]; simp [predict, hfm]
    cases this
    rfl

/-- C10 witness: the three conjuncts of the amended theorem evaluated at
concrete inputs — the `None` body and a boolean body give the two 500
TypeError messages, and the concrete 400 from the empty-array body is
traced to its failing membership test. -/
theorem C10_witness :
    predict ⟨some wModel, some idScaler, ["A"]⟩ none =
      .err 500 "argument of type 'NoneType' is not iterable"
    ∧ predict ⟨some wModel, some idScaler, ["A"]⟩ (some (.scalar "bool")) =
        .err 500 ("argument of type '" ++ "bool" ++ "' is not iterable")
    ∧ ∃ b f, (some (ParsedJson.arr []) : Option ParsedJson) = some b ∧ f ∈ requiredFields ∧
        pyContains b f = .ok false ∧
        ("Missing field: " ++ "temperature" : String) = "Missing field: " ++ f :=
  ⟨C10_amended_none_body_is_500.1 wModel idScaler ["A"],
   C10_amended_none_body_is_500.2.1 wModel idScaler ["A"] "bool",
   C10_amended_none_body_is_500.2.2 ⟨some wModel, some idScaler, ["A"]⟩ (some (.arr []))
     ("Missing field: " ++ "temperature") (by decide)⟩

/-! ## Claims about the training pipeline -/

theorem colVar_nonneg (xs : List ℚ) : 0 ≤ colVar xs := by
  unfold colVar
  refine div_nonneg ?_ (Nat.cast_nonneg xs.length)
  refine List.sum_nonneg ?_
  intro x hx
  obtain ⟨y, _, rfl⟩ := List.mem_map.mp hx
  exact sq_nonneg (y - colMean xs)

theorem fitStandardScaler_scaleSq_pos (rows : List (List ℚ)) :
    ∀ v ∈ (fitStandardScaler rows).scaleSq, 0 < v := by
  intro v hv
  obtain ⟨w, hw, hwv⟩ := List.mem_map.mp hv
  obtain ⟨col, _, rfl⟩ := List.mem_map.mp hw
  by_cases h0 : colVar col = 0
  · rw [← hwv]; simp [h0]
  · rw [← hwv]
    simp only [h0, if_false]
    exact lt_of_le_of_ne (colVar_nonneg col) (Ne.symm h0)

theorem train_ok_inversion (lib : TrainLib) (df : DataFrame) (out : TrainOutput)
    (hok : train_adaboost_model lib df = .ok out) :
    ∃ X rawLabels y classes X_train X_test y_train y_test X_sm y_sm,
      selectFeatures df = .ok X
      ∧ df.strCols.lookup labelColumn = some rawLabels
      ∧ lib.encodeLabels rawLabels = (y, classes)
      ∧ lib.trainTestSplit X y = (X_train, X_test, y_train, y_test)
      ∧ lib.smote X_train y_train = (X_sm, y_sm)
      ∧ out.scaler = fitStandardScaler X_sm
      ∧ out.X_train_smote_scaled = lib.applyScaler (fitStandardScaler X_sm) X_sm
      ∧ out.X_test_scaled = lib.applyScaler (fitStandardScaler X_sm) X_test
      ∧ out.y_train_smote = y_sm
      ∧ out.y_test = y_test
      ∧ out.classes = classes
      ∧ out.classifier = lib.fitAdaBoost (lib.applyScaler (fitStandardScaler X_sm) X_sm) y_sm := by
  unfold train_adaboost_model at hok
  rcases hsel : selectFeatures df with e | X
  · rw [hsel] at hok; cases hok
  rw [hsel] at hok
  dsimp only at hok
  rcases hlab : df.strCols.lookup labelColumn with _ | rawLabels
  · rw [hlab] at hok; cases hok
  rw [hlab] at hok
  dsimp only at hok
  simp only [Except.ok.injEq] at hok
  subst hok
  exact ⟨X, rawLabels, (lib.encodeLabels rawLabels).1, (lib.encodeLabels rawLabels).2,
    (lib.trainTestSplit X (lib.encodeLabels rawLabels).1).1,
    (lib.trainTestSplit X (lib.encodeLabels rawLabels).1).2.1,
    (lib.trainTestSplit X (lib.encodeLabels rawLabels).1).2.2.1,
    (lib.trainTestSplit X (lib.encodeLabels rawLabels).1).2.2.2,
    (lib.smote (lib.trainTestSplit X (lib.encodeLabels rawLabels).1).1
      (lib.trainTestSplit X (lib.encodeLabels rawLabels).1).2.2.1).1,
    (lib.smote (lib.trainTestSplit X (lib.encodeLabels rawLabels).1).1
      (lib.trainTestSplit X (lib.encodeLabels rawLabels).1).2.2.1).2,
    rfl, rfl, rfl, rfl, rfl, rfl, rfl, rfl, rfl, rfl, rfl, rfl⟩

/-- C7: whenever the trainer accepts a dataset, the SMOTE oversampling is
applied to the output of the train/test split — to the training half
only — and the scaler is fitted on the SMOTEd training features alone,
with the test half transformed by that same fitted scaler, never passing
through SMOTE (the split's raw test matrix feeds the transform, and the
held-out labels are the split's test labels untouched). -/
theorem C7_smote_after_split_train_only (lib : TrainLib) (df : DataFrame)
    (out : TrainOutput) (hok : train_adaboost_model lib df = .ok out) :
    ∃ X rawLabels y classes X_train X_test y_train y_test X_sm y_sm,
      selectFeatures df = .ok X
      ∧ df.strCols.lookup labelColumn = some rawLabels
      ∧ lib.encodeLabels rawLabels = (y, classes)
      ∧ lib.trainTestSplit X y = (X_train, X_test, y_train, y_test)
      ∧ lib.smote X_train y_train = (X_sm, y_sm)
      ∧ out.scaler = fitStandardScaler X_sm
      ∧ out.X_train_smote_scaled = lib.applyScaler (fitStandardScaler X_sm) X_sm
      ∧ out.X_test_scaled = lib.applyScaler (fitStandardScaler X_sm) X_test
      ∧ out.y_train_smote = y_sm
      ∧ out.y_test = y_test :=
  match train_ok_inversion lib df out hok with
  | ⟨X, rawLabels, y, classes, X_train, X_test, y_train, y_test, X_sm, y_sm,
      h1, h2, h3, h4, h5, h6, h7, h8, h9, h10, _, _⟩ =>
    ⟨X, rawLabels, y, classes, X_train, X_test, y_train, y_test, X_sm, y_sm,
      h1, h2, h3, h4, h5, h6, h7, h8, h9, h10⟩

/-- C7 witness: the pipeline evaluated on a concrete dataset and concrete
deterministic library operations. -/
theorem C7_witness :
    ∃ X rawLabels y classes X_train X_test y_train y_test X_sm y_sm,
      selectFeatures wDf = .ok X
      ∧ wDf.strCols.lookup labelColumn = some rawLabels
      ∧ wLib.encodeLabels rawLabels = (y, classes)
      ∧ wLib.trainTestSplit X y = (X_train, X_test, y_train, y_test)
      ∧ wLib.smote X_train y_train = (X_sm, y_sm)
      ∧ wOut.scaler = fitStandardScaler X_sm
      ∧ wOut.X_train_smote_scaled = wLib.applyScaler (fitStandardScaler X_sm) X_sm
      ∧ wOut.X_test_scaled = wLib.applyScaler (fitStandardScaler X_sm) X_test
      ∧ wOut.y_train_smote = y_sm
      ∧ wOut.y_test = y_test :=
  C7_smote_after_split_train_only wLib wDf wOut rfl

/-- C8: a dataset missing any required column (feature or label) makes
the trainer fail with the error naming the missing column(s), and the
outcome is the same for every instantiation of the fitting library — the
failure happens before any label encoding, oversampling, scaling or
classifier fitting is invoked, and nothing is silently dropped or
imputed. -/
theorem C8_missing_column_fails_fast (df : DataFrame) :
    (missingFeatureColumns df ≠ [] →
      ∀ lib : TrainLib, train_adaboost_model lib df =
        .error (.missingColumns (missingFeatureColumns df)))
    ∧ (missingFeatureColumns df = [] → df.strCols.lookup labelColumn = none →
      ∀ lib : TrainLib, train_adaboost_model lib df =
        .error (.missingLabelColumn labelColumn)) := by
  constructor
  · intro hne lib
    rcases hA : df.numCols.lookup "air_temperature" with _ | ca
    · simp [train_adaboost_model, selectFeatures, hA]
    rcases hB : df.numCols.lookup "CO2" with _ | cb
    · simp [train_adaboost_model, selectFeatures, hA, hB]
    rcases hC : df.numCols.lookup "pm2_5" with _ | cc
    · simp [train_adaboost_model, selectFeatures, hA, hB, hC]
    rcases hD : df.numCols.lookup "humidity" with _ | cd
    · simp [train_adaboost_model, selectFeatures, hA, hB, hC, hD]
    exact absurd (by simp [missingFeatureColumns, featureColumns, hA, hB, hC, hD]) hne
  · intro hmf hlab lib
    have hall : ∀ c ∈ featureColumns, (df.numCols.lookup c).isNone = false := by
      intro c hcmem
      cases hb : (df.numCols.lookup c).isNone
      · rfl
      · have hcmem2 : c ∈ missingFeatureColumns df :=
          List.mem_filter.mpr ⟨hcmem, hb⟩
        rw [hmf] at hcmem2
        cases hcmem2
    have conv : ∀ o : Option (List ℚ), o.isNone = false → ∃ col, o = some col := by
      intro o ho
      cases o with
      | none => cases ho
      | some col => exact ⟨col, rfl⟩
    obtain ⟨ca, hA⟩ := conv _ (hall "air_temperature" (by simp [featureColumns]))
    obtain ⟨cb, hB⟩ := conv _ (hall "CO2" (by simp [featureColumns]))
    obtain ⟨cc, hC⟩ := conv _ (hall "pm2_5" (by simp [featureColumns]))
    obtain ⟨cd, hD⟩ := conv _ (hall "humidity" (by simp [featureColumns]))
    simp [train_adaboost_model, selectFeatures, hA, hB, hC, hD, hlab]

/-- C8 witness: the dataset without a `CO2` column fails with the error
naming `CO2`, under the concrete library instantiation. -/
theorem C8_witness :
    train_adaboost_model wLib dfMissingCO2 = .error (.missingColumns ["CO2"]) :=
  (C8_missing_column_fails_fast dfMissingCO2).1 (by decide) wLib

/-- C9: for every dataset the trainer accepts, each per-feature entry of
the square of the fitted scaler's divisor vector (`scale_`, the "Std" the
code reports and the serving path divides by; sklearn substitutes 1 for a
zero `sqrt(var_)`) is strictly positive, so the divisor `scale_` is
non-zero and the normalization `(value - mean) / scale` is defined for
every feature. -/
theorem C9_scale_divisor_positive (lib : TrainLib) (df : DataFrame)
    (out : TrainOutput) (hok : train_adaboost_model lib df = .ok out) :
    ∀ v ∈ out.scaler.scaleSq, 0 < v := by
  obtain ⟨X, rawLabels, y, classes, X_train, X_test, y_train, y_test, X_sm, y_sm,
    _, _, _, _, _, hsc, _, _, _, _, _, _⟩ := train_ok_inversion lib df out hok
  rw [hsc]
  exact fitStandardScaler_scaleSq_pos X_sm

/-- C9 witness: on the concrete run the fitted training row is constant
in every feature, the variances are all zero, and the divisor squares are
still positive (each equal to 1). -/
theorem C9_witness :
    wOut.scaler.scaleSq = [1, 1, 1, 1] ∧ (0 : ℚ) < 1 := by
  have htr : ([[(1 : ℚ), 3, 5, 7]] : List (List ℚ)).transpose = [[1], [3], [5], [7]] := rfl
  have hsq : wOut.scaler.scaleSq = [1, 1, 1, 1] := by
    simp [wOut, fitStandardScaler, FittedScaler.scaleSq, htr, colVar, colMean]
  exact ⟨hsq, C9_scale_divisor_positive wLib wDf wOut rfl 1 (by rw [hsq]; simp)⟩

end Aang
